import Mathlib

/-!
# Verification of the multiflowpx proxy core against its specification

This file shallowly embeds the per-connection dispatch pipeline of the
multiflowproxy C++ sources and settles the specified properties about it.
Strings are modelled as lists of byte values (`List Nat`), matching the
byte-oriented `std::string` operations of the source.
-/

namespace Multiflow

/-- ASCII byte list of a Lean string literal (all source strings are ASCII). -/
def strBytes (s : String) : List Nat := s.data.map Char.toNat

/-- `::tolower` on an ASCII byte, as used by `ResponseParser::hasHeader`. -/
def toLowerByte (c : Nat) : Nat := if 65 ≤ c ∧ c ≤ 90 then c + 32 else c

/-- Lower-case an ASCII byte string. -/
def lowerBytes (l : List Nat) : List Nat := l.map toLowerByte

/-- `std::string::find`: index of the first occurrence of `needle` in `hay`,
`none` standing for `npos`. -/
def findIdx : List Nat → List Nat → Option Nat
  | [], needle => if needle = [] then some 0 else none
  | h :: t, needle =>
      if needle.isPrefixOf (h :: t) then some 0
      else (findIdx t needle).map (· + 1)

/-! ## Protocol sniffer (ConnectionType.cpp, OpenVPNConnectionType.cpp) -/

/-- `initial_data.find("SSH-") == 0` in `detectConnectionType`. -/
def startsWithSSH (d : List Nat) : Bool := (strBytes "SSH-").isPrefixOf d

/-- Count of bytes above `0x7F` among the first 16 bytes
(the VMess entropy heuristic of `detectConnectionType`). -/
def highByteCount (d : List Nat) : Nat :=
  ((d.take 16).filter (fun b => 127 < b)).length

/-- Embedding of `ConnectionTypeFactory::detectConnectionType`
(src/multiflowproxy/src/ConnectionType.cpp lines 40-82): SSH prefix first,
then the OpenVPN opcode-nibble test, then the VMess heuristics, defaulting
to SSH. -/
def detectConnectionType (d : List Nat) : String :=
  if startsWithSSH d then "SSH"
  else if 2 ≤ d.length ∧ (d.getD 0 0 &&& 240 = 32 ∨ d.getD 0 0 &&& 240 = 48) then
    "OpenVPN"
  else if 16 ≤ d.length ∧ (8 < highByteCount d ∨ (d.getD 0 0 = 1 ∧ d.getD 1 0 = 0)) then
    "V2Ray"
  else "SSH"

/-- Embedding of `OpenVPNConnectionType::isOpenVPNProtocol`
(src/multiflowproxy/src/OpenVPNConnectionType.cpp lines 64-84). This member
is never invoked by the dispatch pipeline; it is embedded to compare with
`detectConnectionType`. -/
def isOpenVPNProtocol (d : List Nat) : Bool :=
  if d.length < 2 then false
  else
    let b0 := d.getD 0 0
    let b1 := d.getD 1 0
    if b0 &&& 240 = 32 ∨ b0 &&& 240 = 48 then true
    else if b0 = 0 ∧ 0 < b1 then true
    else false

/-- The connection classes the factory can instantiate. -/
inductive ConnKind where
  | SSH
  | OpenVPN
  | V2Ray
  deriving DecidableEq, Repr

/-- Embedding of `ConnectionTypeFactory::createConnection`
(src/multiflowproxy/src/ConnectionType.cpp lines 14-38): the detected name
selects the class, the OpenVPN and V2Ray branches being guarded by
`!ssh_only`, with SSH as the default. -/
def createConnection (d : List Nat) (sshOnly : Bool) : ConnKind :=
  let t := detectConnectionType d
  if t = "SSH" then ConnKind.SSH
  else if sshOnly = false ∧ t = "OpenVPN" then ConnKind.OpenVPN
  else if sshOnly = false ∧ t = "V2Ray" then ConnKind.V2Ray
  else ConnKind.SSH

/-! ## Response generator (ResponseParser.cpp, HttpParseResponse.cpp, Common.h) -/

/-- `ResponseParser::extractHeaders`: everything after the first CRLF, the
empty string when no CRLF occurs. -/
def extractHeaders (request : List Nat) : List Nat :=
  match findIdx request (strBytes "\r\n") with
  | none => []
  | some i => request.drop (i + 2)

/-- `ResponseParser::hasHeader`: lower-case the header block, locate
`name ++ ":"`, cut the rest of that line, and look for `value` inside it. -/
def hasHeader (headers name value : List Nat) : Bool :=
  let lh := lowerBytes headers
  let ln := lowerBytes name
  let lv := lowerBytes value
  match findIdx lh (ln ++ strBytes ":") with
  | none => false
  | some pos =>
    let valueStart := pos + ln.length + 1
    let lineEnd :=
      match findIdx (lh.drop valueStart) (strBytes "\r\n") with
      | none => lh.length
      | some j => valueStart + j
    let headerLine := (lh.drop valueStart).take (lineEnd - valueStart)
    (findIdx headerLine lv).isSome

/-- `ResponseParser::isWebSocketUpgrade` (src/multiflowproxy/src/ResponseParser.cpp
lines 19-24): an `upgrade` header whose line contains `websocket` or `ws`;
no other header is consulted. -/
def isWebSocketUpgrade (request : List Nat) : Bool :=
  let headers := extractHeaders request
  hasHeader headers (strBytes "upgrade") (strBytes "websocket") ||
    hasHeader headers (strBytes "upgrade") (strBytes "ws")

/-- `ResponseParser::extractMethod`: the bytes before the first space,
empty when the buffer has no space. -/
def extractMethod (request : List Nat) : List Nat :=
  match findIdx request [32] with
  | none => []
  | some i => request.take i

/-- `ResponseParser::extractPath`: the bytes between the first and second
spaces, empty when either space is missing. -/
def extractPath (request : List Nat) : List Nat :=
  match findIdx request [32] with
  | none => []
  | some i =>
    match findIdx (request.drop (i + 1)) [32] with
    | none => []
    | some j => (request.drop (i + 1)).take j

/-- Decimal digits of a natural number (`std::to_string`), with fuel. -/
def digitsAux : Nat → Nat → List Nat
  | 0, _ => []
  | fuel + 1, n => if n < 10 then [48 + n] else digitsAux fuel (n / 10) ++ [48 + n % 10]

/-- `std::to_string` on a natural number, as a byte list. -/
def natBytes (n : Nat) : List Nat := digitsAux (n + 1) n

/-- `Constants::DEFAULT_HTTP_RESPONSE` (include/Common.h line 53). -/
def DEFAULT_HTTP_RESPONSE : List Nat := strBytes "HTTP/1.1 200 OK\r\n\r\n"

/-- `Constants::WEBSOCKET_UPGRADE_RESPONSE` (include/Common.h lines 54-56):
the fixed 101 response; it carries no `Sec-WebSocket-Accept` header. -/
def WEBSOCKET_UPGRADE_RESPONSE : List Nat :=
  strBytes "HTTP/1.1 101 Switching Protocols\r\nUpgrade: websocket\r\nConnection: Upgrade\r\n\r\n"

/-- `HttpParseResponse::generateErrorResponse`
(src/multiflowproxy/src/HttpParseResponse.cpp lines 38-47). -/
def generateErrorResponse (statusCode : Nat) (message : List Nat) : List Nat :=
  strBytes "HTTP/1.1 " ++ natBytes statusCode ++ [32] ++ message ++ strBytes "\r\n" ++
    strBytes "Content-Type: text/plain\r\n" ++
    strBytes "Content-Length: " ++ natBytes message.length ++ strBytes "\r\n" ++
    strBytes "Connection: close\r\n" ++ strBytes "\r\n" ++ message

/-- `HttpParseResponse::generateHttpResponse`
(src/multiflowproxy/src/HttpParseResponse.cpp lines 29-36): canned response
for GET, POST and HEAD, 405 otherwise; the path argument is ignored. -/
def generateHttpResponse (defaultResponse method _path : List Nat) : List Nat :=
  if method = strBytes "GET" ∨ method = strBytes "POST" ∨ method = strBytes "HEAD" then
    defaultResponse
  else generateErrorResponse 405 (strBytes "Method Not Allowed")

/-- `HttpParseResponse::parseResponse`
(src/multiflowproxy/src/HttpParseResponse.cpp lines 10-23), the response
generator `ProxyServer` installs: WebSocket branch first, then 400 for an
empty method, then the plain dispatch. -/
def parseResponse (defaultResponse request : List Nat) : List Nat :=
  if isWebSocketUpgrade request then WEBSOCKET_UPGRADE_RESPONSE
  else if extractMethod request = [] then generateErrorResponse 400 (strBytes "Bad Request")
  else generateHttpResponse defaultResponse (extractMethod request) (extractPath request)

/-! ## SHA-1 and base64 (the OpenSSL primitives behind
`WebsocketParseResponse::generateWebSocketAccept`), modelled bit-exactly
over byte lists with arithmetic modulo 2^32. -/

/-- Rotate a 32-bit word left by `n` bits. -/
def rotl (n x : Nat) : Nat := ((x <<< n) ||| (x >>> (32 - n))) % 4294967296

/-- Split a byte list into consecutive 32-bit big-endian words. -/
def toWords : List Nat → List Nat
  | b0 :: b1 :: b2 :: b3 :: rest =>
      (((b0 * 256 + b1) * 256 + b2) * 256 + b3) :: toWords rest
  | _ => []

/-- Extend a 16-word block to the 80-word SHA-1 message schedule, adding
`fuel` words. -/
def extendW (w : List Nat) : Nat → List Nat
  | 0 => w
  | fuel + 1 =>
      let i := w.length
      let x := rotl 1 ((((w.getD (i - 3) 0).xor (w.getD (i - 8) 0)).xor
        (w.getD (i - 14) 0)).xor (w.getD (i - 16) 0))
      extendW (w ++ [x]) fuel

/-- One SHA-1 state: the five 32-bit chaining words. -/
structure Sha1St where
  a : Nat
  b : Nat
  c : Nat
  d : Nat
  e : Nat
  deriving DecidableEq, Repr

/-- The SHA-1 round function applied over the message schedule, `t` being
the round index. -/
def sha1Rounds : List Nat → Nat → Sha1St → Sha1St
  | [], _, st => st
  | wt :: rest, t, st =>
      let f :=
        if t < 20 then (st.b &&& st.c) ||| ((st.b ^^^ 4294967295) &&& st.d)
        else if t < 40 then (st.b ^^^ st.c) ^^^ st.d
        else if t < 60 then ((st.b &&& st.c) ||| (st.b &&& st.d)) ||| (st.c &&& st.d)
        else (st.b ^^^ st.c) ^^^ st.d
      let k :=
        if t < 20 then 1518500249
        else if t < 40 then 1859775393
        else if t < 60 then 2400959708
        else 3395469782
      let temp := (rotl 5 st.a + f + st.e + k + wt) % 4294967296
      sha1Rounds rest (t + 1) ⟨temp, st.a, rotl 30 st.b, st.c, st.d⟩

/-- Compress one 64-byte block into the chaining state. -/
def sha1Compress (st : Sha1St) (block : List Nat) : Sha1St :=
  let w := extendW (toWords block) 64
  let r := sha1Rounds w 0 st
  ⟨(st.a + r.a) % 4294967296, (st.b + r.b) % 4294967296, (st.c + r.c) % 4294967296,
    (st.d + r.d) % 4294967296, (st.e + r.e) % 4294967296⟩

/-- Split a padded message into 64-byte blocks (`fuel` is the block count). -/
def chunks64 : Nat → List Nat → List (List Nat)
  | 0, _ => []
  | n + 1, l => l.take 64 :: chunks64 n (l.drop 64)

/-- A 32-bit word as four big-endian bytes. -/
def wordBytes (h : Nat) : List Nat :=
  [(h >>> 24) % 256, (h >>> 16) % 256, (h >>> 8) % 256, h % 256]

/-- SHA-1 of a byte list: merkle-damgard padding to a 64-byte multiple with
the 64-bit big-endian bit length, then block compression from the standard
initial state. -/
def sha1 (msg : List Nat) : List Nat :=
  let bitLen := 8 * msg.length
  let lenBytes := [(bitLen >>> 56) % 256, (bitLen >>> 48) % 256, (bitLen >>> 40) % 256,
    (bitLen >>> 32) % 256, (bitLen >>> 24) % 256, (bitLen >>> 16) % 256,
    (bitLen >>> 8) % 256, bitLen % 256]
  let padded := msg ++ [128] ++ List.replicate ((119 - msg.length % 64) % 64) 0 ++ lenBytes
  let blocks := chunks64 (padded.length / 64) padded
  let st := blocks.foldl sha1Compress
    ⟨1732584193, 4023233417, 2562383102, 271733878, 3285377520⟩
  wordBytes st.a ++ wordBytes st.b ++ wordBytes st.c ++ wordBytes st.d ++ wordBytes st.e

/-- The base64 alphabet as bytes. -/
def b64Alphabet : List Nat :=
  strBytes "ABCDEFGHIJKLMNOPQRSTUVWXYZabcdefghijklmnopqrstuvwxyz0123456789+/"

/-- Index into the base64 alphabet. -/
def b64Char (i : Nat) : Nat := b64Alphabet.getD i 0

/-- Base64 encoding without line breaks (OpenSSL `BIO_f_base64` with
`BIO_FLAGS_BASE64_NO_NL`); `=` is byte 61. -/
def base64Encode : List Nat → List Nat
  | [] => []
  | [b0] => [b64Char (b0 >>> 2), b64Char ((b0 % 4) <<< 4), 61, 61]
  | [b0, b1] =>
      [b64Char (b0 >>> 2), b64Char (((b0 % 4) <<< 4) ||| (b1 >>> 4)),
        b64Char ((b1 % 16) <<< 2), 61]
  | b0 :: b1 :: b2 :: rest =>
      b64Char (b0 >>> 2) :: b64Char (((b0 % 4) <<< 4) ||| (b1 >>> 4)) ::
        b64Char (((b1 % 16) <<< 2) ||| (b2 >>> 6)) :: b64Char (b2 % 64) ::
          base64Encode rest

/-! ## WebSocket handshake (WebsocketParseResponse.cpp, Common.h) -/

/-- The RFC 6455 magic GUID appended to the client key. -/
def websocketMagic : List Nat := strBytes "258EAFA5-E914-47DA-95CA-C5AB0DC85B11"

/-- Embedding of `WebsocketParseResponse::generateWebSocketAccept`
(src/multiflowproxy/src/WebsocketParseResponse.cpp lines 63-87):
`base64(SHA1(key ++ MAGIC))`. -/
def generateWebSocketAccept (key : List Nat) : List Nat :=
  base64Encode (sha1 (key ++ websocketMagic))

/-- `Utils::trim`: strip leading and trailing spaces, tabs, CR and LF. -/
def trimBytes (s : List Nat) : List Nat :=
  let wsp := fun c => c = 32 ∨ c = 9 ∨ c = 13 ∨ c = 10
  ((s.dropWhile wsp).reverse.dropWhile wsp).reverse

/-- `WebsocketParseResponse::extractWebSocketKey`: the trimmed value after
the literal `Sec-WebSocket-Key:` up to the next CRLF. -/
def extractWebSocketKey (request : List Nat) : List Nat :=
  match findIdx request (strBytes "Sec-WebSocket-Key:") with
  | none => []
  | some keyPos =>
    let valueStart := keyPos + 18
    match findIdx (request.drop valueStart) (strBytes "\r\n") with
    | none => []
    | some j => trimBytes ((request.drop valueStart).take j)

/-- Embedding of `WebsocketParseResponse::generateWebSocketHandshake`
(src/multiflowproxy/src/WebsocketParseResponse.cpp lines 30-45), the 101
builder that does carry the accept header; the server never invokes this
class. -/
def generateWebSocketHandshake (request : List Nat) : List Nat :=
  let key0 := extractWebSocketKey request
  let key := if key0 = [] then strBytes "dGhlIHNhbXBsZSBub25jZQ==" else key0
  let accept := generateWebSocketAccept key
  strBytes "HTTP/1.1 101 Switching Protocols\r\nUpgrade: websocket\r\nConnection: Upgrade\r\nSec-WebSocket-Accept: " ++
    accept ++ strBytes "\r\n\r\n"

/-- A well-formed WebSocket upgrade request carrying the RFC 6455 sample
key, used to exercise the WebSocket path. -/
def wsUpgradeRequest : List Nat :=
  strBytes "GET /ws HTTP/1.1\r\nHost: x\r\nUpgrade: websocket\r\nConnection: Upgrade\r\nSec-WebSocket-Key: dGhlIHNhbXBsZSBub25jZQ==\r\n\r\n"

/-! ## Bidirectional forwarder (Connection.cpp `Connection::forwardData`)

One forwarding half is driven by the outcomes the OS delivers: each outer
iteration of the `while (true)` loop either finds the source readable and
reads a chunk, hits the 1-second `select` timeout (at which point the
`active` flag is consulted), or sees `read` return zero / negative. The
destination `::write` results are a second outcome sequence, one entry per
`::write` call. -/

/-- Result of one `::write` call: `ok n` wrote `n` bytes, `err` a negative
return. -/
inductive WriteRes where
  | ok (n : Nat)
  | err
  deriving DecidableEq, Repr

/-- One outer iteration outcome of `forwardData`: a successful read of a
chunk, a read failure or EOF (`read <= 0`, or a `select` error), or a
`select` timeout together with the `active` flag observed then. -/
inductive IoEvent where
  | chunk (data : List Nat)
  | eofOrErr
  | timeout (active : Bool)

/-- The inner retry loop of `Connection::forwardData`
(src/multiflowproxy/src/Connection.cpp lines 63-71): keep writing while
`bytes_written < bytes_read`; a negative write breaks the inner loop only.
Returns the bytes of the chunk actually written, whether a write error
occurred, and the remaining write outcomes. -/
def writeChunk (total : Nat) : Nat → List WriteRes → Nat × Bool × List WriteRes
  | written, [] =>
      if total ≤ written then (written, false, []) else (written, true, [])
  | written, w :: rest =>
      if total ≤ written then (written, false, w :: rest)
      else
        match w with
        | WriteRes.err => (written, true, rest)
        | WriteRes.ok n => writeChunk total (written + n) rest

/-- Embedding of `Connection::forwardData`
(src/multiflowproxy/src/Connection.cpp lines 48-80), as the byte stream
delivered to the destination socket over a finite outcome trace: a read
chunk goes through the inner write loop and — faithfully to the source,
where the write-error `break` leaves only the inner loop — the outer loop
then continues regardless of a write error; `read <= 0` exits; a timeout
exits exactly when the `active` flag is false. -/
def forwardData : List IoEvent → List WriteRes → List Nat
  | [], _ => []
  | IoEvent.chunk data :: evs, oracle =>
      let r := writeChunk data.length 0 oracle
      data.take r.1 ++ forwardData evs r.2.2
  | IoEvent.eofOrErr :: _, _ => []
  | IoEvent.timeout active :: evs, oracle =>
      if active then forwardData evs oracle else []

/-! ## Per-connection pipeline (ProxyServer.cpp `handleConnection`) -/

/-- Embedding of `ProxyServer::handleConnection`
(src/multiflowproxy/src/ProxyServer.cpp lines 205-236) as the data flow
toward the upstream: the first chunk received from the client is the
sniff buffer handed to the factory (a non-positive read returns early);
the upstream-bound byte stream is produced by `forwardData` over the
chunks read afterwards — the code never writes the sniff buffer to the
upstream socket. -/
def handleConnection (sshOnly : Bool) (clientChunks : List (List Nat))
    (oracle : List WriteRes) : Option (ConnKind × List Nat) :=
  match clientChunks with
  | [] => none
  | initial :: rest =>
      if initial = [] then none
      else
        some (createConnection initial sshOnly,
          forwardData (rest.map IoEvent.chunk) oracle)

/-! ## Session teardown ordering (HttpConnection.cpp `handleData`) -/

/-- `SSHConnectionType::handleData` (src/multiflowproxy/src/HttpConnection.cpp
lines 77-96; identically in the OpenVPN and V2Ray classes) joins the
client-to-server thread, then joins the server-to-client thread, and only
then calls `setActive(false)`: with the halves exiting at ticks `tA` and
`tB`, the flag is cleared at tick `max tA tB`. -/
def setActiveFalseTick (tA tB : Nat) : Nat := max tA tB

/-- The session `active` flag at tick `t` (true from `establish` until
`handleData` clears it). -/
def activeAt (tA tB t : Nat) : Bool := decide (t < setActiveFalseTick tA tB)

/-! ## Upstream connector (HttpConnection.cpp, OpenVPNConnectionType.cpp,
V2RayConnectionType.cpp, Server.cpp) -/

/-- Socket-level operations a connector can perform. -/
inductive SockAction where
  | create
  | bindTo (host : List Nat) (port : Nat)
  | listenOn
  | connectTo (host : List Nat) (port : Nat)
  deriving DecidableEq, Repr

/-- Whether an action is an outbound TCP connect. -/
def isConnectAction : SockAction → Bool
  | SockAction.connectTo _ _ => true
  | _ => false

/-- The socket actions of `Server::Server(const std::string&, int)`
(src/multiflowproxy/src/Server.cpp lines 40-61), the constructor every
upstream connector invokes: it creates a socket, binds it to the given
address and listens — it never connects. -/
def serverCtorActions (host : List Nat) (port : Nat) : List SockAction :=
  [SockAction.create, SockAction.bindTo host port, SockAction.listenOn]

/-- `Server::connect` (src/multiflowproxy/src/Server.cpp lines 129-135):
it merely reports whether the server fd is positive and performs no
socket action. -/
def serverConnectResult (serverFd : Int) : Bool := decide (0 < serverFd)

/-- Outcome of one connect attempt: `connect()` returned true, returned
false, or the attempt threw (only the latter sleeps 2 s in the SSH loop). -/
inductive AttemptRes where
  | success
  | failRet
  | failExn
  deriving DecidableEq, Repr

/-- The retry loop of `SSHConnectionType::connectToSSHServer`
(src/multiflowproxy/src/HttpConnection.cpp lines 117-134): up to `fuel`
attempts starting at index `i`; returns (success, attempts made, sleeps
taken) — a 2-second sleep happens only in the `catch` branch. -/
def connLoop (oracle : Nat → AttemptRes) : Nat → Nat → Bool × Nat × Nat
  | 0, _ => (false, 0, 0)
  | fuel + 1, i =>
      match oracle i with
      | AttemptRes.success => (true, 1, 0)
      | AttemptRes.failRet =>
          let r := connLoop oracle fuel (i + 1)
          (r.1, r.2.1 + 1, r.2.2)
      | AttemptRes.failExn =>
          let r := connLoop oracle fuel (i + 1)
          (r.1, r.2.1 + 1, r.2.2 + 1)

/-- `SSHConnectionType::connectToSSHServer`: three tries. -/
def connectToSSHServer (oracle : Nat → AttemptRes) : Bool × Nat × Nat :=
  connLoop oracle 3 0

/-- `OpenVPNConnectionType::connectToOpenVPNServer`
(src/multiflowproxy/src/OpenVPNConnectionType.cpp lines 86-101): a single
attempt, no retry loop and no sleep. -/
def connectToOpenVPNServer (oracle : Nat → AttemptRes) : Bool × Nat × Nat :=
  match oracle 0 with
  | AttemptRes.success => (true, 1, 0)
  | AttemptRes.failRet => (false, 1, 0)
  | AttemptRes.failExn => (false, 1, 0)

/-- `V2RayConnectionType::connectToV2RayServer`
(src/multiflowproxy/src/V2RayConnectionType.cpp lines 105-120): likewise a
single attempt. -/
def connectToV2RayServer (oracle : Nat → AttemptRes) : Bool × Nat × Nat :=
  match oracle 0 with
  | AttemptRes.success => (true, 1, 0)
  | AttemptRes.failRet => (false, 1, 0)
  | AttemptRes.failExn => (false, 1, 0)

/-! ## Worker pool (include/Worker.h, Worker.cpp) -/

/-- One worker: its running flag and its FIFO task queue (tasks are ids). -/
structure WorkerSt where
  running : Bool
  queue : List Nat
  deriving DecidableEq, Repr

/-- `Worker::execute` (include/Worker.h lines 15-25; `Worker::addTask` is
identical): under the queue mutex, return without enqueuing when the
worker is not running, otherwise push the task. -/
def workerExecute (w : WorkerSt) (t : Nat) : WorkerSt :=
  if w.running then { w with queue := w.queue ++ [t] } else w

/-- The worker pool: running flag, round-robin counter, workers. -/
structure PoolSt where
  running : Bool
  nextWorkerIndex : Nat
  workers : List WorkerSt
  deriving DecidableEq, Repr

/-- `WorkerPool::submitTask` (include/Worker.h lines 50-59;
`WorkerPool::addTask` is identical): return immediately when the pool is
not running, otherwise pick the worker at `fetch_add` modulo the worker
count and delegate to `Worker::execute`. -/
def submitTask (p : PoolSt) (t : Nat) : PoolSt :=
  if p.running then
    { p with
      nextWorkerIndex := p.nextWorkerIndex + 1,
      workers := p.workers.set (p.nextWorkerIndex % p.workers.length)
        (workerExecute (p.workers.getD (p.nextWorkerIndex % p.workers.length) ⟨false, []⟩) t) }
  else p

end Multiflow

namespace Multiflow

/-- C7: with `ssh_only` set, the factory returns the SSH connection type for
every initial buffer; OpenVPN and V2Ray are never chosen. -/
theorem ssh_only_always_ssh (d : List Nat) :
    createConnection d true = ConnKind.SSH := by
  simp [createConnection]

/-- C6 counterexample: the buffer `0x00 0x01` satisfies the claimed
TCP-length-prefix alternative (length 2, not SSH, first byte `0x00`, second
byte above zero), yet the dispatch sniffer classifies it as SSH, not
OpenVPN; only the never-called `isOpenVPNProtocol` accepts it. -/
theorem openvpn_length_framing_not_detected :
    2 ≤ ([0, 1] : List Nat).length ∧
      startsWithSSH [0, 1] = false ∧
      ([0, 1] : List Nat).getD 0 0 = 0 ∧ 0 < ([0, 1] : List Nat).getD 1 0 ∧
      detectConnectionType [0, 1] = "SSH" ∧
      isOpenVPNProtocol [0, 1] = true := by
  decide

/-- C6 amended: for buffers of length at least 2 not starting with `SSH-`,
the dispatch sniffer classifies OpenVPN exactly when the high nibble of the
first byte is `0x20` or `0x30`; the `0x00`-prefixed TCP framing alternative
is not consulted by the dispatch. -/
theorem detect_openvpn_iff_opcode_nibble (d : List Nat)
    (hlen : 2 ≤ d.length) (hssh : startsWithSSH d = false) :
    detectConnectionType d = "OpenVPN" ↔
      (d.getD 0 0 &&& 240 = 32 ∨ d.getD 0 0 &&& 240 = 48) := by
  unfold detectConnectionType
  rw [hssh]
  simp only [Bool.false_eq_true, if_false]
  by_cases h : d.getD 0 0 &&& 240 = 32 ∨ d.getD 0 0 &&& 240 = 48
  · rw [if_pos ⟨hlen, h⟩]
    exact iff_of_true rfl h
  · rw [if_neg (fun hc => h hc.2)]
    constructor
    · intro hv
      exfalso
      by_cases h16 : 16 ≤ d.length ∧ (8 < highByteCount d ∨ (d.getD 0 0 = 1 ∧ d.getD 1 0 = 0))
      · rw [if_pos h16] at hv; exact absurd hv (by decide)
      · rw [if_neg h16] at hv; exact absurd hv (by decide)
    · intro hv; exact absurd hv h

/-- Witness for `detect_openvpn_iff_opcode_nibble` at the buffer
`0x38 0x01`, whose first-byte high nibble is `0x30`. -/
theorem detect_openvpn_iff_opcode_nibble_witness :
    2 ≤ ([56, 1] : List Nat).length ∧ startsWithSSH [56, 1] = false ∧
      (detectConnectionType [56, 1] = "OpenVPN" ↔
        (([56, 1] : List Nat).getD 0 0 &&& 240 = 32 ∨
          ([56, 1] : List Nat).getD 0 0 &&& 240 = 48)) :=
  ⟨by decide, by decide,
    detect_openvpn_iff_opcode_nibble [56, 1] (by decide) (by decide)⟩

/-- C4 counterexample: on the WebSocket path the server (through the
`HttpParseResponse` generator it installs) emits the fixed constant 101
response, whose headers contain no `Sec-WebSocket-Accept` at all, so
parsing the emitted response cannot yield the computed accept value. -/
theorem emitted_101_lacks_accept_header :
    parseResponse DEFAULT_HTTP_RESPONSE wsUpgradeRequest = WEBSOCKET_UPGRADE_RESPONSE ∧
      findIdx WEBSOCKET_UPGRADE_RESPONSE (strBytes "Sec-WebSocket-Accept") = none := by
  decide

set_option maxRecDepth 100000 in
/-- C4 amended: `base64(SHA1(key ++ MAGIC))` on the sample key equals
`s3pPLMBiTxaQ9kYGzzhZRbK+xOo=`, and the 101 response the program emits
parses to `Upgrade: websocket` and `Connection: Upgrade` but carries no
`Sec-WebSocket-Accept` header; the computed accept value appears only in
the `WebsocketParseResponse` handshake builder, which the server never
invokes. -/
theorem websocket_accept_and_emitted_headers :
    generateWebSocketAccept (strBytes "dGhlIHNhbXBsZSBub25jZQ==") =
        strBytes "s3pPLMBiTxaQ9kYGzzhZRbK+xOo=" ∧
      hasHeader (extractHeaders WEBSOCKET_UPGRADE_RESPONSE)
          (strBytes "upgrade") (strBytes "websocket") = true ∧
      hasHeader (extractHeaders WEBSOCKET_UPGRADE_RESPONSE)
          (strBytes "connection") (strBytes "upgrade") = true ∧
      findIdx WEBSOCKET_UPGRADE_RESPONSE (strBytes "Sec-WebSocket-Accept") = none ∧
      (findIdx (generateWebSocketHandshake wsUpgradeRequest)
          (strBytes "Sec-WebSocket-Accept: s3pPLMBiTxaQ9kYGzzhZRbK+xOo=")).isSome = true := by
  decide

/-- C5 counterexample: a request carrying `Upgrade: websocket` but no
`Connection` header at all is still routed to the WebSocket path (the 101
constant is emitted), where the claim requires the plain path. -/
theorem websocket_path_without_connection_header :
    hasHeader (extractHeaders (strBytes "GET / HTTP/1.1\r\nUpgrade: websocket\r\n\r\n"))
        (strBytes "connection") (strBytes "upgrade") = false ∧
      parseResponse DEFAULT_HTTP_RESPONSE
          (strBytes "GET / HTTP/1.1\r\nUpgrade: websocket\r\n\r\n") =
        WEBSOCKET_UPGRADE_RESPONSE := by
  decide

/-- C5 amended: the generator takes the WebSocket path (emits the 101
constant) exactly when the headers contain, case-insensitively, an
`upgrade` header whose line contains `websocket` or `ws`; the `Connection`
header is not consulted. -/
theorem websocket_path_iff_upgrade_header (defaultResponse request : List Nat)
    (hd : defaultResponse ≠ WEBSOCKET_UPGRADE_RESPONSE) :
    parseResponse defaultResponse request = WEBSOCKET_UPGRADE_RESPONSE ↔
      (hasHeader (extractHeaders request) (strBytes "upgrade") (strBytes "websocket") = true ∨
        hasHeader (extractHeaders request) (strBytes "upgrade") (strBytes "ws") = true) := by
  unfold parseResponse
  by_cases h : isWebSocketUpgrade request = true
  · rw [if_pos h]
    unfold isWebSocketUpgrade at h
    rw [Bool.or_eq_true] at h
    exact iff_of_true rfl h
  · rw [if_neg h]
    unfold isWebSocketUpgrade at h
    rw [Bool.or_eq_true] at h
    apply iff_of_false _ h
    by_cases hm : extractMethod request = []
    · rw [if_pos hm]
      decide
    · rw [if_neg hm]
      unfold generateHttpResponse
      by_cases hg : extractMethod request = strBytes "GET" ∨
          extractMethod request = strBytes "POST" ∨ extractMethod request = strBytes "HEAD"
      · rw [if_pos hg]; exact hd
      · rw [if_neg hg]; decide

/-- Witness for `websocket_path_iff_upgrade_header` at the default canned
response and a well-formed upgrade request. -/
theorem websocket_path_iff_upgrade_header_witness :
    DEFAULT_HTTP_RESPONSE ≠ WEBSOCKET_UPGRADE_RESPONSE ∧
      (parseResponse DEFAULT_HTTP_RESPONSE
          (strBytes "GET /ws HTTP/1.1\r\nUpgrade: websocket\r\nConnection: Upgrade\r\n\r\n") =
        WEBSOCKET_UPGRADE_RESPONSE ↔
        (hasHeader
            (extractHeaders
              (strBytes "GET /ws HTTP/1.1\r\nUpgrade: websocket\r\nConnection: Upgrade\r\n\r\n"))
            (strBytes "upgrade") (strBytes "websocket") = true ∨
          hasHeader
            (extractHeaders
              (strBytes "GET /ws HTTP/1.1\r\nUpgrade: websocket\r\nConnection: Upgrade\r\n\r\n"))
            (strBytes "upgrade") (strBytes "ws") = true)) :=
  ⟨by decide, websocket_path_iff_upgrade_header _ _ (by decide)⟩

/-- C9 counterexample: the request `GET /` has no second space, so its first
line cannot be parsed as `METHOD SP PATH SP VERSION` (the extracted path is
empty), yet the generator emits the canned 200 response, not the claimed
400. -/
theorem malformed_request_line_gets_canned_response :
    extractPath (strBytes "GET /") = [] ∧
      parseResponse DEFAULT_HTTP_RESPONSE (strBytes "GET /") = DEFAULT_HTTP_RESPONSE ∧
      DEFAULT_HTTP_RESPONSE ≠ generateErrorResponse 400 (strBytes "Bad Request") := by
  decide

/-- C9 amended: on the plain path the generator emits 400 exactly when the
extracted method (the bytes before the first space of the whole buffer) is
empty — the version token is never validated; GET, POST and HEAD get the
canned response; any other nonempty method gets a 405 whose body has the
exact error wire format with `Content-Type: text/plain`, `Content-Length`
equal to the message byte length, and `Connection: close`. -/
theorem plain_path_dispatch (defaultResponse request : List Nat)
    (hws : isWebSocketUpgrade request = false) :
    (extractMethod request = [] →
        parseResponse defaultResponse request =
          generateErrorResponse 400 (strBytes "Bad Request")) ∧
    ((extractMethod request = strBytes "GET" ∨ extractMethod request = strBytes "POST" ∨
        extractMethod request = strBytes "HEAD") →
        parseResponse defaultResponse request = defaultResponse) ∧
    (extractMethod request ≠ [] →
        ¬(extractMethod request = strBytes "GET" ∨ extractMethod request = strBytes "POST" ∨
            extractMethod request = strBytes "HEAD") →
        parseResponse defaultResponse request =
          generateErrorResponse 405 (strBytes "Method Not Allowed")) ∧
    generateErrorResponse 400 (strBytes "Bad Request") =
      strBytes "HTTP/1.1 400 Bad Request\r\nContent-Type: text/plain\r\nContent-Length: 11\r\nConnection: close\r\n\r\nBad Request" ∧
    generateErrorResponse 405 (strBytes "Method Not Allowed") =
      strBytes "HTTP/1.1 405 Method Not Allowed\r\nContent-Type: text/plain\r\nContent-Length: 18\r\nConnection: close\r\n\r\nMethod Not Allowed" := by
  refine ⟨?_, ?_, ?_, by decide, by decide⟩
  · intro hm
    unfold parseResponse
    rw [if_neg (by simp [hws]), if_pos hm]
  · intro hg
    have hm : extractMethod request ≠ [] := by
      rcases hg with h | h | h <;> rw [h] <;> decide
    unfold parseResponse generateHttpResponse
    rw [if_neg (by simp [hws]), if_neg hm, if_pos hg]
  · intro hm hg
    unfold parseResponse generateHttpResponse
    rw [if_neg (by simp [hws]), if_neg hm, if_neg hg]

/-- Witness for `plain_path_dispatch` at a `DELETE` request. -/
theorem plain_path_dispatch_witness :
    isWebSocketUpgrade (strBytes "DELETE / HTTP/1.1\r\nHost: x\r\n\r\n") = false ∧
      ((extractMethod (strBytes "DELETE / HTTP/1.1\r\nHost: x\r\n\r\n") = [] →
          parseResponse DEFAULT_HTTP_RESPONSE (strBytes "DELETE / HTTP/1.1\r\nHost: x\r\n\r\n") =
            generateErrorResponse 400 (strBytes "Bad Request")) ∧
        ((extractMethod (strBytes "DELETE / HTTP/1.1\r\nHost: x\r\n\r\n") = strBytes "GET" ∨
            extractMethod (strBytes "DELETE / HTTP/1.1\r\nHost: x\r\n\r\n") = strBytes "POST" ∨
            extractMethod (strBytes "DELETE / HTTP/1.1\r\nHost: x\r\n\r\n") = strBytes "HEAD") →
            parseResponse DEFAULT_HTTP_RESPONSE (strBytes "DELETE / HTTP/1.1\r\nHost: x\r\n\r\n") =
              DEFAULT_HTTP_RESPONSE) ∧
        (extractMethod (strBytes "DELETE / HTTP/1.1\r\nHost: x\r\n\r\n") ≠ [] →
            ¬(extractMethod (strBytes "DELETE / HTTP/1.1\r\nHost: x\r\n\r\n") = strBytes "GET" ∨
                extractMethod (strBytes "DELETE / HTTP/1.1\r\nHost: x\r\n\r\n") = strBytes "POST" ∨
                extractMethod (strBytes "DELETE / HTTP/1.1\r\nHost: x\r\n\r\n") = strBytes "HEAD") →
            parseResponse DEFAULT_HTTP_RESPONSE (strBytes "DELETE / HTTP/1.1\r\nHost: x\r\n\r\n") =
              generateErrorResponse 405 (strBytes "Method Not Allowed")) ∧
        generateErrorResponse 400 (strBytes "Bad Request") =
          strBytes "HTTP/1.1 400 Bad Request\r\nContent-Type: text/plain\r\nContent-Length: 11\r\nConnection: close\r\n\r\nBad Request" ∧
        generateErrorResponse 405 (strBytes "Method Not Allowed") =
          strBytes "HTTP/1.1 405 Method Not Allowed\r\nContent-Type: text/plain\r\nContent-Length: 18\r\nConnection: close\r\n\r\nMethod Not Allowed") :=
  ⟨by decide, plain_path_dispatch DEFAULT_HTTP_RESPONSE _ (by decide)⟩

/-- C1: evaluation of the forwarder at a trace with a failing write. The
half reads the chunk `abcd`, the destination accepts 2 bytes and then the
next write errors; the write-error `break` leaves only the inner retry
loop, so the outer loop reads the next chunk `ef` and writes it — the
destination receives `abef` instead of the half stopping after `ab` as the
claim requires. -/
theorem forwardData_write_error_keeps_reading :
    forwardData [IoEvent.chunk (strBytes "abcd"), IoEvent.chunk (strBytes "ef")]
        [WriteRes.ok 2, WriteRes.err, WriteRes.ok 2] = strBytes "abef" ∧
      strBytes "abef" ≠ strBytes "ab" := by
  decide

/-- C2: the upstream connector never performs an outbound TCP connect —
`Server::Server(host, port)` creates, binds and listens, and
`Server::connect` only tests the fd — and the OpenVPN and V2Ray connectors
make exactly one attempt with no sleep when every attempt fails, against
the claimed three attempts with 2-second sleeps; only the SSH connector
loops three times, and it sleeps only on the exception branch. -/
theorem upstream_connector_no_connect_and_single_attempt :
    (∀ host port, (serverCtorActions host port).all (fun a => !isConnectAction a) = true) ∧
      serverConnectResult 3 = true ∧
      connectToOpenVPNServer (fun _ => AttemptRes.failRet) = (false, 1, 0) ∧
      connectToV2RayServer (fun _ => AttemptRes.failRet) = (false, 1, 0) ∧
      connectToSSHServer (fun _ => AttemptRes.failExn) = (false, 3, 3) ∧
      connectToSSHServer (fun _ => AttemptRes.failRet) = (false, 3, 0) :=
  ⟨fun _ _ => rfl, rfl, rfl, rfl, rfl, rfl⟩

/-- C3: with the client sending the sniff buffer `SSH-2.0-Test\r\n` and
then `abc`, the pipeline classifies SSH but delivers only `abc` to the
upstream: the sniffed bytes are consumed by classification and never
prepended to the upstream stream, so the upstream does not see the
original client stream. -/
theorem sniffed_bytes_not_prepended :
    handleConnection false [strBytes "SSH-2.0-Test\r\n", strBytes "abc"] [WriteRes.ok 3] =
        some (ConnKind.SSH, strBytes "abc") ∧
      strBytes "abc" ≠ strBytes "SSH-2.0-Test\r\n" ++ strBytes "abc" := by
  decide

/-- C8: with the first half exiting at tick 0 and the other half idle
until tick 100, `handleData` clears the `active` flag only at tick 100
(after joining both threads), so at the surviving half tick 1 the flag is
still true — and `forwardData` keeps running on a timeout tick that
observes `active = true`, exiting only when it observes false. -/
theorem active_flag_cleared_only_after_both_halves :
    setActiveFalseTick 0 100 = 100 ∧ activeAt 0 100 1 = true ∧
      forwardData [IoEvent.timeout true, IoEvent.chunk (strBytes "x")] [WriteRes.ok 1] =
        strBytes "x" ∧
      forwardData [IoEvent.timeout false, IoEvent.chunk (strBytes "x")] [WriteRes.ok 1] = [] := by
  decide

/-- Writing back the default element read at an index leaves a list
unchanged. -/
theorem list_set_getD {α : Type} (l : List α) (i : Nat) (d : α) :
    l.set i (l[i]?.getD d) = l := by
  induction l generalizing i with
  | nil => rfl
  | cons h t ih =>
    cases i with
    | zero => simp
    | succ n => simp [ih]

/-- C10: submitting a task while the pool is not running is a complete
no-op, and submitting while the pool runs but the selected worker is not
running leaves every worker queue unchanged — the task is never enqueued
anywhere, so no worker loop can ever execute it. -/
theorem submit_not_running_noop (p : PoolSt) (t : Nat) :
    (p.running = false → submitTask p t = p) ∧
      (p.running = true →
        (p.workers.getD (p.nextWorkerIndex % p.workers.length) ⟨false, []⟩).running = false →
        (submitTask p t).workers = p.workers) := by
  constructor
  · intro h
    simp [submitTask, h]
  · intro h hw
    have hw2 : (p.workers[p.nextWorkerIndex % p.workers.length]?.getD
        ({ running := false, queue := [] } : WorkerSt)).running = false := by
      simpa [List.getD] using hw
    simp [submitTask, workerExecute, h, List.getD, hw2, list_set_getD]

/-- Witness for `submit_not_running_noop`: a stopped pool ignores a
submission entirely, and a running pool whose selected worker is stopped
keeps all queues unchanged. -/
theorem submit_not_running_noop_witness :
    (({ running := false, nextWorkerIndex := 0,
        workers := [{ running := true, queue := [] }] } : PoolSt).running = false ∧
      submitTask
          { running := false, nextWorkerIndex := 0,
            workers := [{ running := true, queue := [] }] } 7 =
        { running := false, nextWorkerIndex := 0,
          workers := [{ running := true, queue := [] }] }) ∧
      (({ running := true, nextWorkerIndex := 0,
          workers := [{ running := false, queue := [5] }] } : PoolSt).running = true ∧
        (({ running := true, nextWorkerIndex := 0,
            workers := [{ running := false, queue := [5] }] } : PoolSt).workers.getD
            (0 % 1) ⟨false, []⟩).running = false ∧
        (submitTask
            { running := true, nextWorkerIndex := 0,
              workers := [{ running := false, queue := [5] }] } 7).workers =
          [{ running := false, queue := [5] }]) :=
  ⟨⟨rfl, (submit_not_running_noop _ 7).1 rfl⟩,
    ⟨rfl, by decide, (submit_not_running_noop _ 7).2 rfl (by decide)⟩⟩

end Multiflow
